import Mathlib

/-!
Shallow embedding of the prediction-bot repository (Telegram monthly
prediction broadcaster) for checking its natural-language specification.

Sources embedded (translated from the Python source, file by file):
* `bot/db/models.py` — `PredictionStatus`, `MediaType`, `Prediction`,
  `UserPredictionChoice` (the `Choice` record) and the table constraints
  (`uq_user_prediction_choice_per_month`, partial unique indexes on status).
* `bot/services/prediction_service.py` — `PredictionService` operations as
  pure functions over a list of prediction records (the `predictions` table)
  and a list of choice records (the `user_prediction_choices` table).
* `bot/services/broadcast_service.py` — `BroadcastService` with the transport
  abstracted as a function from attempt index to a `SendOutcome` (the
  four-way aiogram error classification plus success).
* `bot/services/statistics_service.py` — `StatisticsService`.
* `bot/scheduler/jobs.py` — `broadcast_prediction_job` and
  `check_scheduled_predictions` as state transformers that also emit the
  list of activation/broadcast events they perform.
* `bot/handlers/user/prediction.py` — `handle_test_button_selection`.

Datetimes are modelled as integers (instants on a single timeline); the
database session's commit/rollback is absorbed into each operation being one
total function on the state (SQLAlchemy `flush` failures are modelled where
a declared unique constraint can actually fire, namely on choice inserts).
-/

/-- `PredictionStatus` from `bot/db/models.py`. -/
inductive PredictionStatus
  | scheduled
  | active
  | cancelled
  | archived
deriving DecidableEq, Repr

/-- `MediaType` from `bot/db/models.py`. -/
inductive MediaType
  | photo
  | gif
  | video
  | animation
deriving DecidableEq, Repr

/-- A row of the `predictions` table (`Prediction` in `bot/db/models.py`).
`scheduled_at` and `activated_at` are instants modelled as integers. -/
structure Prediction where
  id : Int
  status : PredictionStatus
  media_type : MediaType
  media_file_id : String
  post_text : String
  button_1_initial : String
  button_2_initial : String
  button_3_initial : String
  button_1_final : String
  button_2_final : String
  button_3_final : String
  scheduled_at : Int
  activated_at : Option Int
  broadcast_started : Bool
  broadcast_completed : Bool
  created_by_admin_id : Option Int
deriving DecidableEq, Repr

/-- A row of the `user_prediction_choices` table (`UserPredictionChoice` in
`bot/db/models.py`). -/
structure Choice where
  telegram_user_id : Int
  prediction_id : Int
  selected_button : Int
  year : Int
  month : Int
  is_test : Bool
deriving DecidableEq, Repr

/-- `Prediction.get_final_button` from `bot/db/models.py`: a lookup in the
dict mapping 1, 2, 3 to the final labels, with `""` as the `.get` default. -/
def Prediction.get_final_button (p : Prediction) (button_number : Int) : String :=
  let mapping : List (Int × String) :=
    [(1, p.button_1_final), (2, p.button_2_final), (3, p.button_3_final)]
  match mapping.find? (fun kv => kv.1 = button_number) with
  | some kv => kv.2
  | none => ""

/-- The outcome the messaging transport produces for one send attempt:
success, or one of the aiogram exceptions the broadcast service
distinguishes (`TelegramRetryAfter`, `TelegramForbiddenError`,
`TelegramBadRequest`, any other exception). -/
inductive SendOutcome
  | ok
  | retryAfter (seconds : Nat)
  | forbidden
  | badRequest
  | otherError
deriving DecidableEq, Repr

/-- `BroadcastService.MAX_RETRIES` from `bot/services/broadcast_service.py`. -/
def MAX_RETRIES : Nat := 3

/-- `BroadcastService.BATCH_SIZE` from `bot/services/broadcast_service.py`. -/
def BATCH_SIZE : Nat := 25

/-- `BroadcastService._send_to_user` from `bot/services/broadcast_service.py`,
instrumented with the number of send attempts it performs.  A transport
`t : Nat → SendOutcome` gives the outcome of the attempt made at each
`retry_count`.  The extra `fuel` argument only makes the recursion
structural: it is the number of attempts the `retry_count < MAX_RETRIES`
guard still permits from this call (`MAX_RETRIES + 1 - retry_count`), so the
`fuel = 0` base case is never reached before the guard itself returns
`false`.  Returns (success flag, attempts performed). -/
def send_to_user_go (t : Nat → SendOutcome) : Nat → Nat → Bool × Nat
  | _, 0 => (false, 0)
  | retry_count, fuel + 1 =>
    match t retry_count with
    | .ok => (true, 1)
    | .retryAfter _ =>
      if retry_count < MAX_RETRIES then
        let r := send_to_user_go t (retry_count + 1) fuel
        (r.1, r.2 + 1)
      else
        (false, 1)
    | .forbidden => (false, 1)
    | .badRequest => (false, 1)
    | .otherError =>
      if retry_count < MAX_RETRIES then
        let r := send_to_user_go t (retry_count + 1) fuel
        (r.1, r.2 + 1)
      else
        (false, 1)

/-- The success flag of `_send_to_user` entered at `retry_count = 0`. -/
def send_to_user (t : Nat → SendOutcome) : Bool :=
  (send_to_user_go t 0 (MAX_RETRIES + 1)).1

/-- Number of send attempts `_send_to_user` performs for transport `t`. -/
def send_attempts (t : Nat → SendOutcome) : Nat :=
  (send_to_user_go t 0 (MAX_RETRIES + 1)).2

/-- `BroadcastService.send_test_prediction` from
`bot/services/broadcast_service.py`: one attempt inside a try/except that
returns `False` on any exception — no retry. -/
def send_test_prediction (t : Nat → SendOutcome) : Bool :=
  match t 0 with
  | .ok => true
  | _ => false

/-- Result dict of `BroadcastService.broadcast_prediction`. -/
structure BroadcastResult where
  success_count : Nat
  failure_count : Nat
  errors : List Int
deriving DecidableEq, Repr

/-- The batch slicing `for i in range(0, total, BATCH_SIZE)` of
`broadcast_prediction`: successive slices of `BATCH_SIZE` recipients.  The
`fuel` argument only makes the recursion structural; every step consumes at
least one list element, so `fuel = length` (as supplied by `toBatches`)
never runs out. -/
def toBatchesGo : Nat → List Int → List (List Int)
  | _, [] => []
  | 0, _ :: _ => []
  | fuel + 1, x :: rest =>
    ((x :: rest).take BATCH_SIZE) :: toBatchesGo fuel ((x :: rest).drop BATCH_SIZE)

/-- Partition the recipient list into batches of `BATCH_SIZE`. -/
def toBatches (user_ids : List Int) : List (List Int) :=
  toBatchesGo user_ids.length user_ids

/-- The per-recipient body of `broadcast_prediction`'s loop: tally a success
or a failure (appending the failing id to `errors`). -/
def broadcastStep (t : Int → Nat → SendOutcome) (acc : BroadcastResult) (user_id : Int) :
    BroadcastResult :=
  if send_to_user (t user_id) then
    { acc with success_count := acc.success_count + 1 }
  else
    { acc with
        failure_count := acc.failure_count + 1
        errors := acc.errors ++ [user_id] }

/-- `BroadcastService.broadcast_prediction` from
`bot/services/broadcast_service.py`: iterate the batches, sending to each
recipient of a batch in order.  The inter-batch sleep and the progress
callback (whose exceptions are swallowed) do not touch the tallies.
`t user_id retry_count` is the transport outcome for that recipient at that
attempt index. -/
def broadcast_prediction (t : Int → Nat → SendOutcome) (user_ids : List Int) :
    BroadcastResult :=
  (toBatches user_ids).foldl
    (fun acc batch => batch.foldl (broadcastStep t) acc)
    ⟨0, 0, []⟩

/-- `PredictionService.get_scheduled_prediction` from
`bot/services/prediction_service.py`: the SCHEDULED row, if any
(`scalar_one_or_none`; under the at-most-one-SCHEDULED partial unique index
`find?` returns exactly that row). -/
def get_scheduled_prediction (db : List Prediction) : Option Prediction :=
  db.find? (fun p => decide (p.status = PredictionStatus.scheduled))

/-- `PredictionService.get_active_prediction`: the ACTIVE row, if any. -/
def get_active_prediction (db : List Prediction) : Option Prediction :=
  db.find? (fun p => decide (p.status = PredictionStatus.active))

/-- `PredictionService.get_prediction_by_id`. -/
def get_prediction_by_id (db : List Prediction) (prediction_id : Int) : Option Prediction :=
  db.find? (fun p => decide (p.id = prediction_id))

/-- The content arguments of `PredictionService.create_prediction`. -/
structure CreateReq where
  media_type : MediaType
  media_file_id : String
  post_text : String
  button_1_initial : String
  button_2_initial : String
  button_3_initial : String
  button_1_final : String
  button_2_final : String
  button_3_final : String
  scheduled_at : Int
  created_by_admin_id : Option Int
deriving DecidableEq, Repr

/-- The first half of `PredictionService.create_prediction`: if a SCHEDULED
prediction exists, set its status to CANCELLED (the flush before the
insert). -/
def cancel_scheduled_pass (db : List Prediction) : List Prediction :=
  match get_scheduled_prediction db with
  | some s =>
    db.map (fun p =>
      if p.id = s.id then { p with status := PredictionStatus.cancelled } else p)
  | none => db

/-- `PredictionService.create_prediction` from
`bot/services/prediction_service.py`: cancel the existing SCHEDULED
prediction (if any), then insert the new row as SCHEDULED.  `new_id` stands
for the autoincrement id the insert assigns.  Returns the new table state
and the created record. -/
def create_prediction (db : List Prediction) (req : CreateReq) (new_id : Int) :
    List Prediction × Prediction :=
  let db1 := cancel_scheduled_pass db
  let newP : Prediction :=
    { id := new_id
      status := PredictionStatus.scheduled
      media_type := req.media_type
      media_file_id := req.media_file_id
      post_text := req.post_text
      button_1_initial := req.button_1_initial
      button_2_initial := req.button_2_initial
      button_3_initial := req.button_3_initial
      button_1_final := req.button_1_final
      button_2_final := req.button_2_final
      button_3_final := req.button_3_final
      scheduled_at := req.scheduled_at
      activated_at := none
      broadcast_started := false
      broadcast_completed := false
      created_by_admin_id := req.created_by_admin_id }
  (db1 ++ [newP], newP)

/-- The intermediate table states `create_prediction` exposes: the incoming
state, the state after the cancel `flush`, and the state after the insert
`flush`.  Used to check the no-two-SCHEDULED-visible window. -/
def create_prediction_states (db : List Prediction) (req : CreateReq) (new_id : Int) :
    List (List Prediction) :=
  [db, cancel_scheduled_pass db, (create_prediction db req new_id).1]

/-- `PredictionService.activate_prediction` from
`bot/services/prediction_service.py`: archive the existing ACTIVE prediction
(if any), then set the given prediction to ACTIVE with
`activated_at = now` and `broadcast_started = True`.  There is no status
check and no failure path. -/
def activate_prediction (now : Int) (db : List Prediction) (prediction_id : Int) :
    List Prediction :=
  let db1 : List Prediction :=
    match get_active_prediction db with
    | some a =>
      db.map (fun p =>
        if p.id = a.id then { p with status := PredictionStatus.archived } else p)
    | none => db
  db1.map (fun p =>
    if p.id = prediction_id then
      { p with
          status := PredictionStatus.active
          activated_at := some now
          broadcast_started := true }
    else p)

/-- `PredictionService.mark_broadcast_completed`. -/
def mark_broadcast_completed (db : List Prediction) (prediction_id : Int) :
    List Prediction :=
  db.map (fun p =>
    if p.id = prediction_id then { p with broadcast_completed := true } else p)

/-- Failure mode of a `flush` that violates a declared unique constraint. -/
inductive DbError
  | uniqueViolation
deriving DecidableEq, Repr

/-- Insert into `user_prediction_choices` under the table's declared
`UniqueConstraint("telegram_user_id", "year", "month",
name="uq_user_prediction_choice_per_month")` from `bot/db/models.py` (also
created verbatim by migration `001_initial.py`).  The constraint covers
every row — it has no `is_test` condition. -/
def insertChoice (choices : List Choice) (c : Choice) : Except DbError (List Choice) :=
  if choices.any (fun e =>
      e.telegram_user_id = c.telegram_user_id ∧ e.year = c.year ∧ e.month = c.month) then
    Except.error DbError.uniqueViolation
  else
    Except.ok (choices ++ [c])

/-- `PredictionService.record_user_choice` from
`bot/services/prediction_service.py`: build the row from the current clock's
year/month and flush it.  The service itself performs no duplicate check;
the only thing that can reject the row is the table's unique constraint. -/
def record_user_choice (choices : List Choice) (telegram_user_id : Int)
    (prediction_id : Int) (selected_button : Int) (is_test : Bool)
    (year month : Int) : Except DbError (List Choice) :=
  insertChoice choices
    { telegram_user_id := telegram_user_id
      prediction_id := prediction_id
      selected_button := selected_button
      year := year
      month := month
      is_test := is_test }

/-- `PredictionService.has_user_chosen_this_month`: a non-test choice row
exists for (user, year, month). -/
def has_user_chosen_this_month (choices : List Choice) (telegram_user_id : Int)
    (year month : Int) : Bool :=
  choices.any (fun c =>
    c.telegram_user_id = telegram_user_id ∧ c.year = year ∧ c.month = month ∧
      c.is_test = false)

/-- Result of `StatisticsService.get_current_month_statistics`
(`MonthlyStatistics` in `bot/services/statistics_service.py`). -/
structure MonthlyStatistics where
  year : Int
  month : Int
  total_users : Nat
  active_users : Nat
  button_1_count : Nat
  button_2_count : Nat
  button_3_count : Nat
deriving DecidableEq, Repr

/-- `StatisticsService.get_current_month_statistics` from
`bot/services/statistics_service.py`, with the current clock's (year, month)
passed in: count all users, select the non-test choices of the period, and
tally them per selected button. -/
def get_current_month_statistics (users : List Int) (choices : List Choice)
    (year month : Int) : MonthlyStatistics :=
  let monthChoices := choices.filter (fun c =>
    c.year = year ∧ c.month = month ∧ c.is_test = false)
  { year := year
    month := month
    total_users := users.length
    active_users := monthChoices.length
    button_1_count := (monthChoices.filter (fun c => c.selected_button = 1)).length
    button_2_count := (monthChoices.filter (fun c => c.selected_button = 2)).length
    button_3_count := (monthChoices.filter (fun c => c.selected_button = 3)).length }

/-- The persistent state the scheduler jobs in `bot/scheduler/jobs.py` read
and write: the `predictions` table and the recipient id list the
`UserService.get_all_user_telegram_ids` query returns. -/
structure SchedState where
  predictions : List Prediction
  users : List Int
deriving DecidableEq, Repr

/-- The externally visible actions a scheduler job performs: an
`activate_prediction` call and a `broadcast_prediction` call. -/
inductive JobEvent
  | activated (prediction_id : Int)
  | sent (prediction_id : Int)
deriving DecidableEq, Repr

/-- `broadcast_prediction_job` from `bot/scheduler/jobs.py`: re-fetch the
prediction; return if missing, not SCHEDULED, or already started and not
completed; otherwise activate it, fetch all recipient ids, broadcast when
the list is nonempty (the result is only logged), and mark the broadcast
completed.  Also returns the list of activation/broadcast events
performed. -/
def broadcast_prediction_job (t : Int → Nat → SendOutcome) (now : Int)
    (st : SchedState) (prediction_id : Int) : SchedState × List JobEvent :=
  match get_prediction_by_id st.predictions prediction_id with
  | none => (st, [])
  | some prediction =>
    if prediction.status ≠ PredictionStatus.scheduled then
      (st, [])
    else if prediction.broadcast_started ∧ prediction.broadcast_completed = false then
      (st, [])
    else
      let db1 := activate_prediction now st.predictions prediction_id
      let user_ids := st.users
      if user_ids.isEmpty then
        ({ st with predictions := mark_broadcast_completed db1 prediction_id },
         [JobEvent.activated prediction_id])
      else
        let _result := broadcast_prediction t user_ids
        ({ st with predictions := mark_broadcast_completed db1 prediction_id },
         [JobEvent.activated prediction_id, JobEvent.sent prediction_id])

/-- `check_scheduled_predictions` from `bot/scheduler/jobs.py` (the Schedule
Monitor's recurring due-check): fetch the SCHEDULED prediction; if its
`scheduled_at` has passed and its broadcast has not started, run
`broadcast_prediction_job` for it; otherwise only (re-)register the one-shot
timer, which changes no table state. -/
def check_scheduled_predictions (t : Int → Nat → SendOutcome) (now : Int)
    (st : SchedState) : SchedState × List JobEvent :=
  match get_scheduled_prediction st.predictions with
  | none => (st, [])
  | some scheduled =>
    if scheduled.scheduled_at ≤ now then
      if scheduled.broadcast_started = false then
        broadcast_prediction_job t now st scheduled.id
      else
        (st, [])
    else
      (st, [])

/-- Run the due-check twice in sequence, collecting both event lists. -/
def check_twice (t : Int → Nat → SendOutcome) (now : Int) (st : SchedState) :
    SchedState × List JobEvent × List JobEvent :=
  let r1 := check_scheduled_predictions t now st
  let r2 := check_scheduled_predictions t now r1.1
  (r2.1, r1.2, r2.2)

/-- The tables `handle_test_button_selection` can reach through its database
session. -/
structure HandlerState where
  predictions : List Prediction
  choices : List Choice
deriving DecidableEq, Repr

/-- What the handler answers back to the tapping admin. -/
inductive CallbackReply
  | answerEmpty
  | dataError
  | notFound
  | editedKeyboard (final_label : String)
deriving DecidableEq, Repr

/-- `handle_test_button_selection` from `bot/handlers/user/prediction.py`
(the `test_select:` callback path): parse
`test_select:prediction_id:button_number`, look the prediction up, and
re-render the keyboard with the selected button's final label
(`get_selected_keyboard` shows `get_final_button`).  `data` is the callback
payload after the `test_select` head, already split on `:` the way
`callback.data.split(":")` splits the full payload. -/
def handle_test_button_selection (data : Option (List String))
    (st : HandlerState) : HandlerState × CallbackReply :=
  match data with
  | none => (st, CallbackReply.answerEmpty)
  | some parts =>
    if parts.length ≠ 3 then
      (st, CallbackReply.dataError)
    else
      match (parts.getD 1 "").toInt?, (parts.getD 2 "").toInt? with
      | some prediction_id, some button_number =>
        match get_prediction_by_id st.predictions prediction_id with
        | none => (st, CallbackReply.notFound)
        | some prediction =>
          (st, CallbackReply.editedKeyboard (prediction.get_final_button button_number))
      | _, _ => (st, CallbackReply.dataError)

/-- The outcomes `_send_to_user` retries (the `TelegramRetryAfter` branch and
the catch-all `Exception` branch), as opposed to success and the permanent
`TelegramForbiddenError` / `TelegramBadRequest` branches. -/
def retryable : SendOutcome → Bool
  | .retryAfter _ => true
  | .otherError => true
  | _ => false

/-- A concrete prediction record used by closed witness statements. -/
def samplePrediction : Prediction :=
  { id := 7
    status := PredictionStatus.scheduled
    media_type := MediaType.photo
    media_file_id := "file-1"
    post_text := "text"
    button_1_initial := "one"
    button_2_initial := "two"
    button_3_initial := "three"
    button_1_final := "ONE"
    button_2_final := "TWO"
    button_3_final := "THREE"
    scheduled_at := 10
    activated_at := none
    broadcast_started := false
    broadcast_completed := false
    created_by_admin_id := none }

/-- A concrete create request used by closed witness statements. -/
def sampleCreateReq : CreateReq :=
  { media_type := MediaType.video
    media_file_id := "file-2"
    post_text := "text2"
    button_1_initial := "i1"
    button_2_initial := "i2"
    button_3_initial := "i3"
    button_1_final := "f1"
    button_2_final := "f2"
    button_3_final := "f3"
    scheduled_at := 20
    created_by_admin_id := some 1 }

/-- The at-most-one-SCHEDULED table invariant (the partial unique index
`ix_predictions_unique_scheduled`). -/
def atMostOneScheduled (db : List Prediction) : Prop :=
  (db.filter (fun p => p.status = PredictionStatus.scheduled)).length ≤ 1

/-- Every intermediate table state a sequence of `create_prediction` calls
exposes, each call contributing its pre-state, its post-cancel state and its
post-insert state. -/
def run_creates_states (db : List Prediction) :
    List (CreateReq × Int) → List (List Prediction)
  | [] => [db]
  | (req, i) :: rest =>
    create_prediction_states db req i ++
      run_creates_states (create_prediction db req i).1 rest

/-! Helper lemmas about record lookup by id. -/

theorem get_prediction_by_id_map (db : List Prediction) (f : Prediction → Prediction)
    (hf : ∀ q, (f q).id = q.id) (i : Int) :
    get_prediction_by_id (db.map f) i = (get_prediction_by_id db i).map f := by
  unfold get_prediction_by_id
  rw [List.find?_map]
  have hpred : ((fun p : Prediction => decide (p.id = i)) ∘ f) =
      (fun p : Prediction => decide (p.id = i)) := by
    funext q
    simp [Function.comp, hf]
  rw [hpred]

theorem eq_of_mem_of_id_eq {db : List Prediction} {p q : Prediction}
    (hnodup : (db.map Prediction.id).Nodup) (hp : p ∈ db) (hq : q ∈ db)
    (hid : q.id = p.id) : q = p :=
  List.inj_on_of_nodup_map hnodup hq hp hid

theorem get_prediction_by_id_of_mem {db : List Prediction} {p : Prediction}
    (hnodup : (db.map Prediction.id).Nodup) (hp : p ∈ db) :
    get_prediction_by_id db p.id = some p := by
  unfold get_prediction_by_id
  cases hfind : db.find? (fun q => decide (q.id = p.id)) with
  | none =>
    exfalso
    rw [List.find?_eq_none] at hfind
    exact (by simpa using hfind p hp : ¬ p.id = p.id) rfl
  | some q =>
    have hqmem := List.mem_of_find?_eq_some hfind
    have hqid : q.id = p.id := by simpa using List.find?_some hfind
    rw [eq_of_mem_of_id_eq hnodup hp hqmem hqid]

theorem get_scheduled_prediction_of_unique {db : List Prediction} {p : Prediction}
    (hp : p ∈ db) (hsched : p.status = PredictionStatus.scheduled)
    (huniq : ∀ q ∈ db, q.status = PredictionStatus.scheduled → q = p) :
    get_scheduled_prediction db = some p := by
  unfold get_scheduled_prediction
  cases hfind : db.find? (fun q => decide (q.status = PredictionStatus.scheduled)) with
  | none =>
    exfalso
    rw [List.find?_eq_none] at hfind
    exact (by simpa using hfind p hp : ¬ p.status = PredictionStatus.scheduled) hsched
  | some q =>
    have hqmem := List.mem_of_find?_eq_some hfind
    have hqsched : q.status = PredictionStatus.scheduled := by
      simpa using List.find?_some hfind
    rw [huniq q hqmem hqsched]

/-- Looking up the activated prediction after `activate_prediction`: whatever
its previous status, its row now reads ACTIVE with `activated_at = now` and
`broadcast_started = true`. -/
theorem activate_prediction_lookup {db : List Prediction} {p : Prediction} (now : Int)
    (hnodup : (db.map Prediction.id).Nodup) (hp : p ∈ db) :
    get_prediction_by_id (activate_prediction now db p.id) p.id =
      some { p with
               status := PredictionStatus.active
               activated_at := some now
               broadcast_started := true } := by
  unfold activate_prediction
  cases hact : get_active_prediction db with
  | none =>
    rw [get_prediction_by_id_map _ _ (fun q => by split <;> rfl),
      get_prediction_by_id_of_mem hnodup hp]
    simp
  | some a =>
    have hamem := List.mem_of_find?_eq_some hact
    rw [get_prediction_by_id_map _ _ (fun q => by split <;> rfl),
      get_prediction_by_id_map _ _ (fun q => by split <;> rfl),
      get_prediction_by_id_of_mem hnodup hp]
    by_cases hpa : p.id = a.id
    · simp [hpa]
    · simp [hpa]

theorem mem_mark_broadcast_completed {db : List Prediction} {q' : Prediction} {pid : Int}
    (h : q' ∈ mark_broadcast_completed db pid) :
    ∃ q ∈ db, q'.status = q.status := by
  unfold mark_broadcast_completed at h
  rcases List.mem_map.1 h with ⟨q, hq, rfl⟩
  refine ⟨q, hq, ?_⟩
  split <;> rfl

theorem status_after_activate {db : List Prediction} {q' : Prediction} {now : Int} {pid : Int}
    (h : q' ∈ activate_prediction now db pid)
    (hsub : ∀ q ∈ db, q.status = PredictionStatus.scheduled → q.id = pid) :
    q'.status ≠ PredictionStatus.scheduled := by
  simp only [activate_prediction] at h
  rcases List.mem_map.1 h with ⟨q1, hq1, rfl⟩
  by_cases hid : q1.id = pid
  · simp [hid]
  · rw [if_neg hid]
    cases hact : get_active_prediction db with
    | none =>
      rw [hact] at hq1
      intro hs
      exact hid (hsub q1 hq1 hs)
    | some a =>
      rw [hact] at hq1
      rcases List.mem_map.1 hq1 with ⟨q0, hq0, rfl⟩
      by_cases h0 : q0.id = a.id
      · simp [h0]
      · rw [if_neg h0] at hid ⊢
        intro hs
        exact hid (hsub q0 hq0 hs)

/-- C1: for every due SCHEDULED prediction, running the Schedule Monitor's
due-check twice in sequence performs exactly one activation and one
broadcast in total: the first run emits exactly the events
`activated, sent`, the second run emits none, and the prediction's row ends
ACTIVE with `broadcast_started` having transitioned false to true exactly
once (it is true, and the second run changed nothing). -/
theorem c1_due_check_twice_single_broadcast (t : Int → Nat → SendOutcome) (now : Int)
    (st : SchedState) (p : Prediction)
    (hnodup : (st.predictions.map Prediction.id).Nodup)
    (hmem : p ∈ st.predictions)
    (hsched : p.status = PredictionStatus.scheduled)
    (huniq : ∀ q ∈ st.predictions, q.status = PredictionStatus.scheduled → q = p)
    (hdue : p.scheduled_at ≤ now)
    (hbs : p.broadcast_started = false)
    (husers : st.users ≠ []) :
    (check_twice t now st).2.1 = [JobEvent.activated p.id, JobEvent.sent p.id] ∧
    (check_twice t now st).2.2 = [] ∧
    get_prediction_by_id (check_twice t now st).1.predictions p.id =
      some { p with
               status := PredictionStatus.active
               activated_at := some now
               broadcast_started := true
               broadcast_completed := true } := by
  have hgs : get_scheduled_prediction st.predictions = some p :=
    get_scheduled_prediction_of_unique hmem hsched huniq
  have hgid : get_prediction_by_id st.predictions p.id = some p :=
    get_prediction_by_id_of_mem hnodup hmem
  have hne : st.users.isEmpty = false := by
    cases hu : st.users with
    | nil => exact absurd hu husers
    | cons a l => rfl
  have hrun1 : check_scheduled_predictions t now st =
      ({ st with predictions :=
           mark_broadcast_completed (activate_prediction now st.predictions p.id) p.id },
       [JobEvent.activated p.id, JobEvent.sent p.id]) := by
    unfold check_scheduled_predictions
    rw [hgs]
    simp only [hdue, if_true, hbs, if_pos rfl]
    unfold broadcast_prediction_job
    rw [hgid]
    simp only [hsched, hbs, hne]
    simp
  have hlookup : get_prediction_by_id
      (mark_broadcast_completed (activate_prediction now st.predictions p.id) p.id) p.id =
      some { p with
               status := PredictionStatus.active
               activated_at := some now
               broadcast_started := true
               broadcast_completed := true } := by
    unfold mark_broadcast_completed
    rw [get_prediction_by_id_map _ _ (fun q => by split <;> rfl),
      activate_prediction_lookup now hnodup hmem]
    simp
  have hgs2 : get_scheduled_prediction
      (mark_broadcast_completed (activate_prediction now st.predictions p.id) p.id) =
      none := by
    unfold get_scheduled_prediction
    rw [List.find?_eq_none]
    intro q' hq'
    simp only [decide_eq_true_eq]
    rcases mem_mark_broadcast_completed hq' with ⟨q1, hq1, hstat⟩
    rw [hstat]
    exact status_after_activate hq1 (fun q hq hqs => by rw [huniq q hq hqs])
  have hrun2 : check_scheduled_predictions t now
      ({ st with predictions :=
           mark_broadcast_completed (activate_prediction now st.predictions p.id) p.id }) =
      ({ st with predictions :=
           mark_broadcast_completed (activate_prediction now st.predictions p.id) p.id },
       []) := by
    unfold check_scheduled_predictions
    rw [hgs2]
  refine ⟨?_, ?_, ?_⟩
  · unfold check_twice
    rw [hrun1]
  · unfold check_twice
    rw [hrun1]
    dsimp only
    rw [hrun2]
  · unfold check_twice
    rw [hrun1]
    dsimp only
    rw [hrun2]
    exact hlookup

theorem c1_witness :
    (check_twice (fun _ _ => SendOutcome.ok) 11
        { predictions := [samplePrediction], users := [100] }).2.1 =
      [JobEvent.activated 7, JobEvent.sent 7] ∧
    (check_twice (fun _ _ => SendOutcome.ok) 11
        { predictions := [samplePrediction], users := [100] }).2.2 = [] ∧
    get_prediction_by_id
        (check_twice (fun _ _ => SendOutcome.ok) 11
          { predictions := [samplePrediction], users := [100] }).1.predictions 7 =
      some { samplePrediction with
               status := PredictionStatus.active
               activated_at := some 11
               broadcast_started := true
               broadcast_completed := true } :=
  c1_due_check_twice_single_broadcast (fun _ _ => SendOutcome.ok) 11
    { predictions := [samplePrediction], users := [100] } samplePrediction
    (by decide) (by decide) (by decide) (by decide) (by decide) (by decide) (by decide)

/-! Helper lemmas for the broadcast tally. -/

theorem toBatchesGo_flatten :
    ∀ (fuel : Nat) (xs : List Int), xs.length ≤ fuel → (toBatchesGo fuel xs).flatten = xs := by
  intro fuel
  induction fuel with
  | zero =>
    intro xs hlen
    rw [List.length_eq_zero.1 (Nat.le_zero.1 hlen)]
    rfl
  | succ f ih =>
    intro xs hlen
    cases xs with
    | nil => rfl
    | cons x rest =>
      rw [toBatchesGo, List.flatten_cons,
        ih ((x :: rest).drop BATCH_SIZE) (by simp [BATCH_SIZE] at hlen ⊢; omega),
        List.take_append_drop]

theorem broadcast_prediction_eq_foldl (t : Int → Nat → SendOutcome) (user_ids : List Int) :
    broadcast_prediction t user_ids = user_ids.foldl (broadcastStep t) ⟨0, 0, []⟩ := by
  unfold broadcast_prediction toBatches
  conv_rhs => rw [← toBatchesGo_flatten user_ids.length user_ids le_rfl]
  rw [List.foldl_flatten]

theorem foldl_broadcastStep_counts (t : Int → Nat → SendOutcome) :
    ∀ (xs : List Int) (acc : BroadcastResult),
      (xs.foldl (broadcastStep t) acc).success_count =
        acc.success_count + xs.countP (fun u => send_to_user (t u)) ∧
      (xs.foldl (broadcastStep t) acc).failure_count =
        acc.failure_count + xs.countP (fun u => ! send_to_user (t u)) := by
  intro xs
  induction xs with
  | nil => intro acc; simp
  | cons x rest ih =>
    intro acc
    rw [List.foldl_cons]
    rcases ih (broadcastStep t acc x) with ⟨hs, hf⟩
    by_cases hx : send_to_user (t x) = true
    · rw [hs, hf]
      simp [broadcastStep, hx, List.countP_cons]
      omega
    · rw [hs, hf]
      simp [broadcastStep, hx, List.countP_cons]
      omega

theorem send_to_user_of_first_ok {t : Nat → SendOutcome} (h : t 0 = SendOutcome.ok) :
    send_to_user t = true := by
  simp [send_to_user, send_to_user_go, h]

theorem send_to_user_of_first_forbidden {t : Nat → SendOutcome}
    (h : t 0 = SendOutcome.forbidden) : send_to_user t = false := by
  simp [send_to_user, send_to_user_go, h]

theorem send_to_user_of_first_badRequest {t : Nat → SendOutcome}
    (h : t 0 = SendOutcome.badRequest) : send_to_user t = false := by
  simp [send_to_user, send_to_user_go, h]

/-- C2: when every recipient either succeeds on the first attempt or fails
permanently on it (`Forbidden` or `BadRequest`), the broadcast counts
exactly the K permanent failures as `failure_count` and the other N - K
recipients as `success_count`; no recipient's failure aborts the batch or
the broadcast (`broadcast_prediction` is a total function, and the theorem
accounts for every recipient). -/
theorem c2_broadcast_counts_partition (t : Int → Nat → SendOutcome) (user_ids : List Int)
    (h : ∀ u ∈ user_ids, t u 0 = SendOutcome.ok ∨ t u 0 = SendOutcome.forbidden ∨
      t u 0 = SendOutcome.badRequest) :
    (broadcast_prediction t user_ids).failure_count =
      user_ids.countP (fun u =>
        t u 0 = SendOutcome.forbidden ∨ t u 0 = SendOutcome.badRequest) ∧
    (broadcast_prediction t user_ids).success_count =
      user_ids.length - user_ids.countP (fun u =>
        t u 0 = SendOutcome.forbidden ∨ t u 0 = SendOutcome.badRequest) := by
  rw [broadcast_prediction_eq_foldl]
  rcases foldl_broadcastStep_counts t user_ids ⟨0, 0, []⟩ with ⟨hs, hf⟩
  rw [hs, hf]
  simp only [Nat.zero_add]
  have hcong : user_ids.countP (fun u => ! send_to_user (t u)) =
      user_ids.countP (fun u =>
        t u 0 = SendOutcome.forbidden ∨ t u 0 = SendOutcome.badRequest) := by
    refine List.countP_congr ?_
    intro u hu
    rcases h u hu with hok | hforb | hbad
    · simp [send_to_user_of_first_ok hok, hok]
    · simp [send_to_user_of_first_forbidden hforb, hforb]
    · simp [send_to_user_of_first_badRequest hbad, hbad]
  have hsplit := List.length_eq_countP_add_countP
    (p := fun u => send_to_user (t u)) user_ids
  have hnot : user_ids.countP (fun u => ¬ send_to_user (t u) = true) =
      user_ids.countP (fun u => ! send_to_user (t u)) := by
    refine List.countP_congr ?_
    intro u hu
    by_cases hsu : send_to_user (t u) = true <;> simp [hsu]
  constructor
  · rw [hcong]
  · rw [hnot, hcong] at hsplit
    omega

theorem c2_witness :
    (broadcast_prediction
        (fun u _ => if u < 3 then SendOutcome.forbidden else SendOutcome.ok)
        ((List.range 60).map (fun n => (n : Int)))).success_count = 57 ∧
    (broadcast_prediction
        (fun u _ => if u < 3 then SendOutcome.forbidden else SendOutcome.ok)
        ((List.range 60).map (fun n => (n : Int)))).failure_count = 3 := by
  rcases c2_broadcast_counts_partition
      (fun u _ => if u < 3 then SendOutcome.forbidden else SendOutcome.ok)
      ((List.range 60).map (fun n => (n : Int)))
      (by decide) with ⟨hf, hs⟩
  refine ⟨?_, ?_⟩
  · rw [hs]
    decide
  · rw [hf]
    decide

/-! Helper lemmas for the retry ceiling. -/

theorem send_to_user_go_attempts_le (t : Nat → SendOutcome) :
    ∀ (fuel retry_count : Nat), (send_to_user_go t retry_count fuel).2 ≤ fuel := by
  intro fuel
  induction fuel with
  | zero =>
    intro rc
    simp [send_to_user_go]
  | succ f ih =>
    intro rc
    simp only [send_to_user_go]
    cases ht : t rc <;> simp only [ht]
    case ok => simp
    case forbidden => simp
    case badRequest => simp
    case retryAfter s =>
      split
      · have := ih (rc + 1)
        simp
        omega
      · simp
    case otherError =>
      split
      · have := ih (rc + 1)
        simp
        omega
      · simp

theorem send_to_user_go_all_retryable {t : Nat → SendOutcome}
    (h : ∀ k, retryable (t k) = true) :
    ∀ (fuel retry_count : Nat), retry_count + fuel = MAX_RETRIES + 1 →
      send_to_user_go t retry_count fuel = (false, fuel) := by
  intro fuel
  induction fuel with
  | zero =>
    intro rc hrc
    rfl
  | succ f ih =>
    intro rc hrc
    have hrk := h rc
    simp only [send_to_user_go]
    cases ht : t rc <;> rw [ht] at hrk <;> simp [retryable] at hrk
    case retryAfter s =>
      by_cases hlt : rc < MAX_RETRIES
      · rw [if_pos hlt, ih (rc + 1) (by omega)]
      · rw [if_neg hlt]
        have hf0 : f = 0 := by omega
        rw [hf0]
    case otherError =>
      by_cases hlt : rc < MAX_RETRIES
      · rw [if_pos hlt, ih (rc + 1) (by omega)]
      · rw [if_neg hlt]
        have hf0 : f = 0 := by omega
        rw [hf0]

/-- C3 counterexample: a transport that keeps returning a retryable error
(`retry after 1s` on every attempt) makes 4 send attempts, not at most 3:
the code
performs the initial attempt plus `MAX_RETRIES = 3` retries. -/
theorem c3_counterexample_four_attempts :
    send_attempts (fun _ => SendOutcome.retryAfter 1) = 4 ∧
    ¬ send_attempts (fun _ => SendOutcome.retryAfter 1) ≤ 3 := by decide

/-- C3 amended: for every transport, `_send_to_user` makes at most
`MAX_RETRIES + 1 = 4` attempts in total (the initial attempt plus up to 3
retries), so the retry recursion always terminates within that ceiling; and
when the transport keeps returning retryable errors the recipient is counted
as a failure after exactly 4 attempts. -/
theorem c3_amended_attempt_ceiling (t : Nat → SendOutcome) :
    send_attempts t ≤ MAX_RETRIES + 1 ∧
    ((∀ k, retryable (t k) = true) →
      send_to_user t = false ∧ send_attempts t = MAX_RETRIES + 1) := by
  constructor
  · exact send_to_user_go_attempts_le t (MAX_RETRIES + 1) 0
  · intro h
    have hgo := send_to_user_go_all_retryable h (MAX_RETRIES + 1) 0 (Nat.zero_add _)
    constructor
    · simp [send_to_user, hgo]
    · simp [send_attempts, hgo]

theorem c3_witness :
    send_to_user (fun _ => SendOutcome.otherError) = false ∧
    send_attempts (fun _ => SendOutcome.otherError) = MAX_RETRIES + 1 :=
  (c3_amended_attempt_ceiling (fun _ => SendOutcome.otherError)).2 (fun _ => rfl)

/-- C7 counterexample: on a recipient whose transport is rate-limited on the
first attempt and succeeds on the retry, the per-recipient broadcast send
succeeds while the admin preview send fails — the two do not apply the same
retry policy. -/
theorem c7_counterexample_retry_divergence :
    send_to_user (fun n => if n = 0 then SendOutcome.retryAfter 1 else SendOutcome.ok) =
      true ∧
    send_test_prediction
        (fun n => if n = 0 then SendOutcome.retryAfter 1 else SendOutcome.ok) =
      false := by decide

/-- C7 amended: `send_test_prediction` makes exactly one attempt and applies
no retry policy — it succeeds iff the first attempt succeeds; consequently
it agrees with the broadcast's per-recipient send whenever the first attempt
succeeds or fails permanently (Forbidden / BadRequest), and can differ only
when the first attempt fails with a retryable error. -/
theorem c7_amended_single_attempt (t : Nat → SendOutcome) :
    (send_test_prediction t = true ↔ t 0 = SendOutcome.ok) ∧
    (t 0 = SendOutcome.ok ∨ t 0 = SendOutcome.forbidden ∨ t 0 = SendOutcome.badRequest →
      send_test_prediction t = send_to_user t) := by
  constructor
  · cases ht : t 0 <;> simp [send_test_prediction, ht]
  · intro h
    rcases h with hok | hforb | hbad
    · rw [send_to_user_of_first_ok hok]
      simp [send_test_prediction, hok]
    · rw [send_to_user_of_first_forbidden hforb]
      simp [send_test_prediction, hforb]
    · rw [send_to_user_of_first_badRequest hbad]
      simp [send_test_prediction, hbad]

theorem c7_witness :
    send_test_prediction (fun _ => SendOutcome.forbidden) =
      send_to_user (fun _ => SendOutcome.forbidden) :=
  (c7_amended_single_attempt (fun _ => SendOutcome.forbidden)).2 (Or.inr (Or.inl rfl))

/-- C4 counterexample: calling `activate_prediction` on a CANCELLED
prediction does not fail with any `InvalidTransition` (no such error exists
in the code) — it returns normally and modifies the record: the prediction
comes out ACTIVE with `activated_at` set and `broadcast_started = true`. -/
theorem c4_counterexample_activate_cancelled :
    activate_prediction 5
        [{ samplePrediction with status := PredictionStatus.cancelled }] 7 =
      [{ samplePrediction with
           status := PredictionStatus.active
           activated_at := some 5
           broadcast_started := true }] ∧
    activate_prediction 5
        [{ samplePrediction with status := PredictionStatus.cancelled }] 7 ≠
      [{ samplePrediction with status := PredictionStatus.cancelled }] := by decide

/-- C4 amended: `activate_prediction` performs no status check and has no
failure path: called on any prediction in the table — in particular on one
whose status is not SCHEDULED — it still archives the current ACTIVE
prediction (if any) and unconditionally rewrites the given prediction's row
to ACTIVE with `activated_at = now` and `broadcast_started = true`.  The
SCHEDULED-status precondition is enforced only by the scheduler caller. -/
theorem c4_amended_activate_unconditional (now : Int) (db : List Prediction)
    (p : Prediction) (hnodup : (db.map Prediction.id).Nodup) (hmem : p ∈ db)
    (_hstatus : p.status ≠ PredictionStatus.scheduled) :
    get_prediction_by_id (activate_prediction now db p.id) p.id =
      some { p with
               status := PredictionStatus.active
               activated_at := some now
               broadcast_started := true } :=
  activate_prediction_lookup now hnodup hmem

theorem c4_witness :
    get_prediction_by_id
        (activate_prediction 6
          [{ samplePrediction with status := PredictionStatus.archived }] 7) 7 =
      some { samplePrediction with
               status := PredictionStatus.active
               activated_at := some 6
               broadcast_started := true } :=
  c4_amended_activate_unconditional 6
    [{ samplePrediction with status := PredictionStatus.archived }]
    { samplePrediction with status := PredictionStatus.archived }
    (by decide) (by decide) (by decide)

/-- C5 evaluation at the failing input: the first test choice for recipient
1 in period (2025, 6) inserts fine, but a second test choice for the same
recipient and period is rejected by the table's unique constraint — which,
contrary to the claim (and to the comment above the constraint in
`bot/db/models.py`), covers test rows too.  A second non-test choice is
likewise rejected (by the same constraint, not by a dedicated
`DuplicateChoice` error, which does not exist in the code). -/
theorem c5_unique_constraint_hits_test_choices :
    record_user_choice [] 1 10 1 true 2025 6 =
      Except.ok [{ telegram_user_id := 1, prediction_id := 10, selected_button := 1,
                   year := 2025, month := 6, is_test := true }] ∧
    record_user_choice
        [{ telegram_user_id := 1, prediction_id := 10, selected_button := 1,
           year := 2025, month := 6, is_test := true }] 1 10 2 true 2025 6 =
      Except.error DbError.uniqueViolation ∧
    record_user_choice
        [{ telegram_user_id := 1, prediction_id := 10, selected_button := 1,
           year := 2025, month := 6, is_test := false }] 1 10 2 false 2025 6 =
      Except.error DbError.uniqueViolation :=
  ⟨rfl, rfl, rfl⟩

/-- C9: the admin test-button handler never touches the database: for every
callback payload and every state of the tables, the state after
`handle_test_button_selection` is exactly the incoming state — in
particular the choices table is unchanged (no `record_user_choice` call,
with or without `is_test`, happens on this path); the handler only
re-renders the keyboard with the final label. -/
theorem c9_test_selection_leaves_state_unchanged (data : Option (List String))
    (st : HandlerState) :
    (handle_test_button_selection data st).1 = st ∧
    (handle_test_button_selection data st).1.choices = st.choices := by
  have h : (handle_test_button_selection data st).1 = st := by
    unfold handle_test_button_selection
    cases data with
    | none => rfl
    | some parts =>
      dsimp only
      split
      · rfl
      · split
        · split <;> rfl
        · rfl
  exact ⟨h, by rw [h]⟩

/-- C10: `get_final_button` is total on every integer `button_number`: it
returns the matching final label for 1, 2, 3 and the empty string for every
other integer, never raising. -/
theorem c10_get_final_button_total (p : Prediction) (n : Int) :
    (n = 1 → p.get_final_button n = p.button_1_final) ∧
    (n = 2 → p.get_final_button n = p.button_2_final) ∧
    (n = 3 → p.get_final_button n = p.button_3_final) ∧
    (n ≠ 1 → n ≠ 2 → n ≠ 3 → p.get_final_button n = "") := by
  refine ⟨?_, ?_, ?_, ?_⟩
  · rintro rfl
    rfl
  · rintro rfl
    rfl
  · rintro rfl
    rfl
  · intro h1 h2 h3
    unfold Prediction.get_final_button
    simp [List.find?, Ne.symm h1, Ne.symm h2, Ne.symm h3]

theorem c10_witness :
    samplePrediction.get_final_button 2 = samplePrediction.button_2_final ∧
    samplePrediction.get_final_button 7 = "" :=
  ⟨(c10_get_final_button_total samplePrediction 2).2.1 rfl,
   (c10_get_final_button_total samplePrediction 7).2.2.2
     (by decide) (by decide) (by decide)⟩

/-! Helper lemmas for the at-most-one-SCHEDULED invariant. -/

theorem eq_of_mem_of_length_le_one {α : Type} {l : List α} (h : l.length ≤ 1)
    {a b : α} (ha : a ∈ l) (hb : b ∈ l) : a = b := by
  cases l with
  | nil => cases ha
  | cons x rest =>
    cases rest with
    | nil =>
      simp at ha hb
      rw [ha, hb]
    | cons y tail => simp at h

theorem cancel_scheduled_pass_no_scheduled (db : List Prediction)
    (h : atMostOneScheduled db) :
    (cancel_scheduled_pass db).filter
      (fun p => p.status = PredictionStatus.scheduled) = [] := by
  rw [List.filter_eq_nil_iff]
  intro q' hq'
  unfold cancel_scheduled_pass at hq'
  cases hfind : get_scheduled_prediction db with
  | none =>
    rw [hfind] at hq'
    have hq'' : q' ∈ db := hq'
    unfold get_scheduled_prediction at hfind
    rw [List.find?_eq_none] at hfind
    simpa using hfind q' hq''
  | some s =>
    rw [hfind] at hq'
    unfold get_scheduled_prediction at hfind
    have hsmem := List.mem_of_find?_eq_some hfind
    have hss : s.status = PredictionStatus.scheduled := by
      simpa using List.find?_some hfind
    rcases List.mem_map.1 hq' with ⟨q, hq, rfl⟩
    by_cases hid : q.id = s.id
    · simp [hid]
    · rw [if_neg hid]
      simp only [decide_eq_true_eq]
      intro hqs
      exact hid (congrArg Prediction.id (eq_of_mem_of_length_le_one h
        (List.mem_filter.2 ⟨hq, by simp [hqs]⟩)
        (List.mem_filter.2 ⟨hsmem, by simp [hss]⟩)))

theorem create_prediction_one_scheduled (db : List Prediction) (req : CreateReq)
    (i : Int) (h : atMostOneScheduled db) :
    ((create_prediction db req i).1.filter
      (fun p => p.status = PredictionStatus.scheduled)).length = 1 := by
  show ((cancel_scheduled_pass db ++
      [(create_prediction db req i).2]).filter
        (fun p => p.status = PredictionStatus.scheduled)).length = 1
  rw [List.filter_append, cancel_scheduled_pass_no_scheduled db h]
  rfl

theorem create_prediction_states_invariant (db : List Prediction) (req : CreateReq)
    (i : Int) (h : atMostOneScheduled db) :
    ∀ s ∈ create_prediction_states db req i, atMostOneScheduled s := by
  intro s hs
  simp only [create_prediction_states, List.mem_cons, List.not_mem_nil, or_false] at hs
  rcases hs with rfl | rfl | rfl
  · exact h
  · unfold atMostOneScheduled
    rw [cancel_scheduled_pass_no_scheduled db h]
    simp
  · unfold atMostOneScheduled
    rw [create_prediction_one_scheduled db req i h]

theorem run_creates_states_invariant (reqs : List (CreateReq × Int)) :
    ∀ db, atMostOneScheduled db →
      ∀ s ∈ run_creates_states db reqs, atMostOneScheduled s := by
  induction reqs with
  | nil =>
    intro db h s hs
    simp only [run_creates_states, List.mem_singleton] at hs
    rw [hs]
    exact h
  | cons ri rest ih =>
    intro db h s hs
    rcases ri with ⟨req, i⟩
    simp only [run_creates_states, List.mem_append] at hs
    rcases hs with hs | hs
    · exact create_prediction_states_invariant db req i h s hs
    · refine ih (create_prediction db req i).1 ?_ s hs
      unfold atMostOneScheduled
      rw [create_prediction_one_scheduled db req i h]

theorem scheduled_cancelled_in_create (db : List Prediction) (req : CreateReq) (i : Int)
    (h : atMostOneScheduled db) {q : Prediction} (hq : q ∈ db)
    (hqs : q.status = PredictionStatus.scheduled) :
    { q with status := PredictionStatus.cancelled } ∈ (create_prediction db req i).1 := by
  show { q with status := PredictionStatus.cancelled } ∈
    cancel_scheduled_pass db ++ [(create_prediction db req i).2]
  refine List.mem_append_left _ ?_
  unfold cancel_scheduled_pass
  cases hfind : get_scheduled_prediction db with
  | none =>
    exfalso
    unfold get_scheduled_prediction at hfind
    rw [List.find?_eq_none] at hfind
    exact (by simpa using hfind q hq : ¬ q.status = PredictionStatus.scheduled) hqs
  | some s =>
    unfold get_scheduled_prediction at hfind
    have hsmem := List.mem_of_find?_eq_some hfind
    have hss : s.status = PredictionStatus.scheduled := by
      simpa using List.find?_some hfind
    have hqsid : q.id = s.id :=
      congrArg Prediction.id (eq_of_mem_of_length_le_one h
        (List.mem_filter.2 ⟨hq, by simp [hqs]⟩)
        (List.mem_filter.2 ⟨hsmem, by simp [hss]⟩))
    have : (fun p : Prediction =>
        if p.id = s.id then { p with status := PredictionStatus.cancelled } else p) q =
        { q with status := PredictionStatus.cancelled } := by
      simp [hqsid]
    exact this ▸ List.mem_map_of_mem _ hq

/-- C6: starting from any table satisfying the at-most-one-SCHEDULED
invariant, every intermediate state exposed by any sequence of
`create_prediction` calls (before, between the cancel and the insert, and
after each call) still has at most one SCHEDULED prediction — there is no
window with two visible; moreover each call inserts its new record as
SCHEDULED and rewrites every previously SCHEDULED record to CANCELLED. -/
theorem c6_create_supersedes_atomically (db : List Prediction)
    (reqs : List (CreateReq × Int)) (h : atMostOneScheduled db) :
    (∀ s ∈ run_creates_states db reqs, atMostOneScheduled s) ∧
    (∀ req i, (create_prediction db req i).2.status = PredictionStatus.scheduled ∧
      (create_prediction db req i).2 ∈ (create_prediction db req i).1) ∧
    (∀ req i, ∀ q ∈ db, q.status = PredictionStatus.scheduled →
      { q with status := PredictionStatus.cancelled } ∈ (create_prediction db req i).1) := by
  refine ⟨run_creates_states_invariant reqs db h, ?_, ?_⟩
  · intro req i
    constructor
    · rfl
    · show (create_prediction db req i).2 ∈
        cancel_scheduled_pass db ++ [(create_prediction db req i).2]
      exact List.mem_append_right _ (List.mem_singleton.2 rfl)
  · intro req i q hq hqs
    exact scheduled_cancelled_in_create db req i h hq hqs

theorem c6_witness :
    ((create_prediction [samplePrediction] sampleCreateReq 8).2.status =
        PredictionStatus.scheduled ∧
      (create_prediction [samplePrediction] sampleCreateReq 8).2 ∈
        (create_prediction [samplePrediction] sampleCreateReq 8).1) ∧
    { samplePrediction with status := PredictionStatus.cancelled } ∈
      (create_prediction [samplePrediction] sampleCreateReq 8).1 :=
  ⟨(c6_create_supersedes_atomically [samplePrediction] [(sampleCreateReq, 8)]
      (by unfold atMostOneScheduled; decide)).2.1 sampleCreateReq 8,
   (c6_create_supersedes_atomically [samplePrediction] [(sampleCreateReq, 8)]
      (by unfold atMostOneScheduled; decide)).2.2 sampleCreateReq 8 samplePrediction
      (by decide) rfl⟩

/-! Helper lemma for the per-button partition of the monthly tally. -/

theorem three_button_counts_partition (cs : List Choice)
    (h : ∀ c ∈ cs, c.selected_button = 1 ∨ c.selected_button = 2 ∨
      c.selected_button = 3) :
    (cs.filter (fun c => c.selected_button = 1)).length +
      (cs.filter (fun c => c.selected_button = 2)).length +
      (cs.filter (fun c => c.selected_button = 3)).length = cs.length := by
  induction cs with
  | nil => simp
  | cons c rest ih =>
    have hr := ih (fun x hx => h x (List.mem_cons_of_mem c hx))
    rcases h c (List.mem_cons_self c rest) with h1 | h2 | h3
    · simp only [List.filter_cons, h1]
      simp
      omega
    · simp only [List.filter_cons, h2]
      simp
      omega
    · simp only [List.filter_cons, h3]
      simp
      omega

/-- C8: the monthly report counts exactly the stored non-test choices of the
period (Y, M): `active_users` is the number of such choices, the three
per-button counts partition it (their sum equals the responded count,
assuming every stored choice carries a selected button in 1..3, as the data
model prescribes), and appending any test choice to the store leaves the
whole report unchanged. -/
theorem c8_monthly_statistics_counts (users : List Int) (choices : List Choice)
    (year month : Int)
    (hopts : ∀ c ∈ choices, c.selected_button = 1 ∨ c.selected_button = 2 ∨
      c.selected_button = 3) :
    (get_current_month_statistics users choices year month).active_users =
      (choices.filter (fun c =>
        c.year = year ∧ c.month = month ∧ c.is_test = false)).length ∧
    (get_current_month_statistics users choices year month).button_1_count +
      (get_current_month_statistics users choices year month).button_2_count +
      (get_current_month_statistics users choices year month).button_3_count =
      (get_current_month_statistics users choices year month).active_users ∧
    (∀ c : Choice, c.is_test = true →
      get_current_month_statistics users (choices ++ [c]) year month =
        get_current_month_statistics users choices year month) := by
  refine ⟨rfl, ?_, ?_⟩
  · show ((choices.filter (fun c =>
        c.year = year ∧ c.month = month ∧ c.is_test = false)).filter
          (fun c => c.selected_button = 1)).length +
      ((choices.filter (fun c =>
        c.year = year ∧ c.month = month ∧ c.is_test = false)).filter
          (fun c => c.selected_button = 2)).length +
      ((choices.filter (fun c =>
        c.year = year ∧ c.month = month ∧ c.is_test = false)).filter
          (fun c => c.selected_button = 3)).length =
      (choices.filter (fun c =>
        c.year = year ∧ c.month = month ∧ c.is_test = false)).length
    refine three_button_counts_partition _ ?_
    intro c hc
    exact hopts c (List.mem_filter.1 hc).1
  · intro c hct
    unfold get_current_month_statistics
    simp [List.filter_append, hct]

theorem c8_witness :
    (get_current_month_statistics [1, 2, 3]
        [{ telegram_user_id := 1, prediction_id := 10, selected_button := 1,
           year := 2025, month := 6, is_test := false },
         { telegram_user_id := 2, prediction_id := 10, selected_button := 3,
           year := 2025, month := 6, is_test := false }] 2025 6).button_1_count +
      (get_current_month_statistics [1, 2, 3]
        [{ telegram_user_id := 1, prediction_id := 10, selected_button := 1,
           year := 2025, month := 6, is_test := false },
         { telegram_user_id := 2, prediction_id := 10, selected_button := 3,
           year := 2025, month := 6, is_test := false }] 2025 6).button_2_count +
      (get_current_month_statistics [1, 2, 3]
        [{ telegram_user_id := 1, prediction_id := 10, selected_button := 1,
           year := 2025, month := 6, is_test := false },
         { telegram_user_id := 2, prediction_id := 10, selected_button := 3,
           year := 2025, month := 6, is_test := false }] 2025 6).button_3_count =
      (get_current_month_statistics [1, 2, 3]
        [{ telegram_user_id := 1, prediction_id := 10, selected_button := 1,
           year := 2025, month := 6, is_test := false },
         { telegram_user_id := 2, prediction_id := 10, selected_button := 3,
           year := 2025, month := 6, is_test := false }] 2025 6).active_users ∧
    get_current_month_statistics [1, 2, 3]
        ([{ telegram_user_id := 1, prediction_id := 10, selected_button := 1,
            year := 2025, month := 6, is_test := false },
          { telegram_user_id := 2, prediction_id := 10, selected_button := 3,
            year := 2025, month := 6, is_test := false }] ++
         [{ telegram_user_id := 9, prediction_id := 10, selected_button := 2,
            year := 2025, month := 6, is_test := true }]) 2025 6 =
      get_current_month_statistics [1, 2, 3]
        [{ telegram_user_id := 1, prediction_id := 10, selected_button := 1,
           year := 2025, month := 6, is_test := false },
         { telegram_user_id := 2, prediction_id := 10, selected_button := 3,
           year := 2025, month := 6, is_test := false }] 2025 6 :=
  ⟨(c8_monthly_statistics_counts [1, 2, 3]
      [{ telegram_user_id := 1, prediction_id := 10, selected_button := 1,
         year := 2025, month := 6, is_test := false },
       { telegram_user_id := 2, prediction_id := 10, selected_button := 3,
         year := 2025, month := 6, is_test := false }] 2025 6 (by decide)).2.1,
   (c8_monthly_statistics_counts [1, 2, 3]
      [{ telegram_user_id := 1, prediction_id := 10, selected_button := 1,
         year := 2025, month := 6, is_test := false },
       { telegram_user_id := 2, prediction_id := 10, selected_button := 3,
         year := 2025, month := 6, is_test := false }] 2025 6 (by decide)).2.2
      { telegram_user_id := 9, prediction_id := 10, selected_button := 2,
        year := 2025, month := 6, is_test := true } rfl⟩
